import Mathlib

/-!
Verification of the marko-sim economic flow calculator and renderer.

The Python source (`src/marko_app.py`) is embedded shallowly over ℚ:
`MarkoEconomicSim.calculate` mirrors lines 15–50, with the policy branch
(lines 24–42) factored into `MarkoEconomicSim.distribution_logic` so that
the pre-clamp allocation is addressable; `draw_system_data` mirrors the
numeric derived state of `draw_system` (lines 53–122), and
`draw_arrow_width` mirrors `draw_arrow` (lines 84–86).
-/

namespace MarkoSim

/-- The record returned by `MarkoEconomicSim.calculate` (source lines 47–50). -/
structure CalcResult where
  labor : ℚ
  auto : ℚ
  public : ℚ
  elites : ℚ
  policy : String
  deriving DecidableEq, Repr

/-- The simulator object: `__init__` stores population and QLT (lines 11–13). -/
structure MarkoEconomicSim where
  population : ℚ
  QLT : ℚ
  deriving DecidableEq, Repr

/-- Distribution logic: source lines 24–42.  Computes the pre-clamp
allocation and the policy status label from `tvg`, the workforce, and the
two policy flags. -/
def MarkoEconomicSim.distribution_logic (sim : MarkoEconomicSim)
    (tvg workforce : ℚ) (use_dividend use_stabilization : Bool) : ℚ × String :=
  let standard_allocation := workforce * 50
  if use_dividend then
    (tvg * 0.45, "National Dividend Active")
  else if use_stabilization then
    if tvg < 1000 then
      (sim.QLT, "Stabilization Fund TRIGGERED")
    else
      (standard_allocation, "Stabilization Fund (Standby)")
  else
    if tvg < 1000 then
      (standard_allocation * (tvg / 1500), "Recession Cutbacks")
    else
      (standard_allocation, "Standard Model")

/-- `MarkoEconomicSim.calculate`: source lines 15–50. -/
def MarkoEconomicSim.calculate (sim : MarkoEconomicSim)
    (jobs_available tvg : ℚ) (use_dividend use_stabilization : Bool) : CalcResult :=
  let workforce := min jobs_available sim.population
  let labor_val := workforce * 90
  let labor_val := if labor_val > tvg then tvg else labor_val
  let auto_val := tvg - labor_val
  let p := sim.distribution_logic tvg workforce use_dividend use_stabilization
  let allocation := if p.1 > tvg then tvg else p.1
  let elite_surplus := tvg - allocation
  { labor := labor_val, auto := auto_val, public := allocation,
    elites := elite_surplus, policy := p.2 }

/-- `scale = 25 / max_val` with `max_val = 3000` (source lines 70–71). -/
def scale : ℚ := 25 / 3000

/-- Arrow tail thickness computed in `draw_arrow` (source lines 84–86). -/
def draw_arrow_width (value : ℚ) : ℚ :=
  let width := value * scale
  if width < 1 then 1 else width

/-- The numeric/derived display state computed by `draw_system`. -/
structure DrawData where
  data : CalcResult
  is_stable : Bool
  status_color : String
  status_text : String
  fill_percent : ℚ
  qlt_percent : ℚ
  labor_arrow_width : ℚ
  auto_arrow_width : ℚ
  elites_arrow_width : ℚ
  public_arrow_width : ℚ
  deriving DecidableEq, Repr

/-- The derived state of `draw_system` (source lines 53–122): constructs the
simulator, maps the policy name to the two flags, calls the calculator, and
derives stability status, fill levels and arrow widths. -/
def draw_system_data (tvg jobs population qlt : ℚ) (policy : String) : DrawData :=
  let sim : MarkoEconomicSim := ⟨population, qlt⟩
  let use_div := policy == "National Dividend"
  let use_stab := policy == "Stabilization Fund"
  let data := sim.calculate jobs tvg use_div use_stab
  let is_stable := decide (data.public ≥ qlt)
  let status_color := if is_stable then "#2ecc71" else "#e74c3c"
  let status_text := if is_stable then "STABLE" else "COLLAPSE"
  let fill_percent := min 1 (data.public / 1500)
  let qlt_percent := min 1 (qlt / 1500)
  { data := data, is_stable := is_stable, status_color := status_color,
    status_text := status_text, fill_percent := fill_percent,
    qlt_percent := qlt_percent,
    labor_arrow_width := draw_arrow_width data.labor,
    auto_arrow_width := draw_arrow_width data.auto,
    elites_arrow_width := draw_arrow_width data.elites,
    public_arrow_width := draw_arrow_width data.public }

/-- Shared helper: the `public` field of `calculate` is the clamped
pre-clamp allocation from `distribution_logic`. -/
theorem calculate_public_spec (sim : MarkoEconomicSim) (jobs tvg : ℚ)
    (d s : Bool) :
    (sim.calculate jobs tvg d s).public
      = (if (sim.distribution_logic tvg (min jobs sim.population) d s).1 > tvg
         then tvg
         else (sim.distribution_logic tvg (min jobs sim.population) d s).1) :=
  rfl

/-- Shared helper: the `policy` field of `calculate` is the label from
`distribution_logic`. -/
theorem calculate_policy_spec (sim : MarkoEconomicSim) (jobs tvg : ℚ)
    (d s : Bool) :
    (sim.calculate jobs tvg d s).policy
      = (sim.distribution_logic tvg (min jobs sim.population) d s).2 :=
  rfl

/-- Shared helper: labor plus automation always equals tvg, since
automation is defined as the residual `tvg - labor_val`. -/
theorem labor_add_auto (sim : MarkoEconomicSim) (jobs tvg : ℚ) (d s : Bool) :
    (sim.calculate jobs tvg d s).labor + (sim.calculate jobs tvg d s).auto
      = tvg := by
  unfold MarkoEconomicSim.calculate
  dsimp only
  ring

/-- C1: For every numeric input to `calculate` and any flag combination,
after the final clamp the returned public allocation is ≤ tvg, the elite
surplus equals tvg minus the allocation, and the elite surplus is ≥ 0. -/
theorem calculate_clamp_invariant (population QLT jobs_available tvg : ℚ)
    (use_dividend use_stabilization : Bool) :
    ((MarkoEconomicSim.mk population QLT).calculate jobs_available tvg
        use_dividend use_stabilization).public ≤ tvg ∧
    ((MarkoEconomicSim.mk population QLT).calculate jobs_available tvg
        use_dividend use_stabilization).elites
      = tvg - ((MarkoEconomicSim.mk population QLT).calculate jobs_available tvg
          use_dividend use_stabilization).public ∧
    0 ≤ ((MarkoEconomicSim.mk population QLT).calculate jobs_available tvg
        use_dividend use_stabilization).elites := by
  unfold MarkoEconomicSim.calculate
  dsimp only
  refine ⟨?_, rfl, ?_⟩
  · split
    · exact le_refl tvg
    · next h => exact le_of_not_lt h
  · split
    · simp
    · next h => have := le_of_not_lt h; linarith

/-- C2: For every numeric input to `calculate`, the returned labor plus the
returned automation value equals tvg exactly, for every flag combination —
including when the 90-per-workforce cap or the allocation clamp fires. -/
theorem calculate_conservation (population QLT jobs_available tvg : ℚ)
    (use_dividend use_stabilization : Bool) :
    ((MarkoEconomicSim.mk population QLT).calculate jobs_available tvg
        use_dividend use_stabilization).labor
      + ((MarkoEconomicSim.mk population QLT).calculate jobs_available tvg
          use_dividend use_stabilization).auto
      = tvg :=
  labor_add_auto _ _ _ _ _

/-- C3: When both the dividend flag and the stabilization flag are set, only
the NationalDividend branch executes: the pre-clamp allocation is
`tvg * 0.45` with label "National Dividend Active", and `calculate` reports
that label — the stabilization and default branches do not run. -/
theorem dividend_priority (population QLT jobs_available tvg workforce : ℚ) :
    (MarkoEconomicSim.mk population QLT).distribution_logic tvg workforce
        true true
      = (tvg * 0.45, "National Dividend Active") ∧
    ((MarkoEconomicSim.mk population QLT).calculate jobs_available tvg
        true true).policy
      = "National Dividend Active" :=
  ⟨rfl, rfl⟩

/-- C4: With neither policy flag set, the pre-clamp allocation is
`standardAllocation * (tvg / 1500)` with label "Recession Cutbacks" when
`tvg < 1000`, and `standardAllocation = workforce * 50` otherwise. -/
theorem default_branch_alloc (population QLT workforce tvg : ℚ) :
    (tvg < 1000 →
      (MarkoEconomicSim.mk population QLT).distribution_logic tvg workforce
          false false
        = (workforce * 50 * (tvg / 1500), "Recession Cutbacks")) ∧
    (1000 ≤ tvg →
      (MarkoEconomicSim.mk population QLT).distribution_logic tvg workforce
          false false
        = (workforce * 50, "Standard Model")) := by
  constructor
  · intro h
    simp [MarkoEconomicSim.distribution_logic, h]
  · intro h
    simp [MarkoEconomicSim.distribution_logic, not_lt.mpr h]

/-- Witness for C4 at `workforce = 16.5`, `tvg = 900` and `tvg = 1500`. -/
theorem default_branch_alloc_witness :
    (MarkoEconomicSim.mk 18 667).distribution_logic 900 (33 / 2 : ℚ)
        false false
      = ((33 / 2 : ℚ) * 50 * (900 / 1500), "Recession Cutbacks") ∧
    (MarkoEconomicSim.mk 18 667).distribution_logic 1500 (33 / 2 : ℚ)
        false false
      = ((33 / 2 : ℚ) * 50, "Standard Model") :=
  ⟨(default_branch_alloc 18 667 (33 / 2) 900).1 (by norm_num),
   (default_branch_alloc 18 667 (33 / 2) 1500).2 (by norm_num)⟩

/-- C5: With the stabilization flag set and the dividend flag clear, the
pre-clamp allocation is `QLT` with label "Stabilization Fund TRIGGERED"
when `tvg < 1000`, and `standardAllocation = workforce * 50` with label
"Stabilization Fund (Standby)" otherwise. -/
theorem stabilization_branch (population QLT workforce tvg : ℚ) :
    (tvg < 1000 →
      (MarkoEconomicSim.mk population QLT).distribution_logic tvg workforce
          false true
        = (QLT, "Stabilization Fund TRIGGERED")) ∧
    (1000 ≤ tvg →
      (MarkoEconomicSim.mk population QLT).distribution_logic tvg workforce
          false true
        = (workforce * 50, "Stabilization Fund (Standby)")) := by
  constructor
  · intro h
    simp [MarkoEconomicSim.distribution_logic, h]
  · intro h
    simp [MarkoEconomicSim.distribution_logic, not_lt.mpr h]

/-- Witness for C5 at `QLT = 667`, `tvg = 900` and `tvg = 1500`. -/
theorem stabilization_branch_witness :
    (MarkoEconomicSim.mk 18 667).distribution_logic 900 (33 / 2 : ℚ)
        false true
      = (667, "Stabilization Fund TRIGGERED") ∧
    (MarkoEconomicSim.mk 18 667).distribution_logic 1500 (33 / 2 : ℚ)
        false true
      = ((33 / 2 : ℚ) * 50, "Stabilization Fund (Standby)") :=
  ⟨(stabilization_branch 18 667 (33 / 2) 900).1 (by norm_num),
   (stabilization_branch 18 667 (33 / 2) 1500).2 (by norm_num)⟩

/-- C6: On population = 18, jobs = 16.5, tvg = 1500, QLT = 667 with no
policy flag set, `calculate` returns labor 1485, automation 15, public
allocation 825, elite surplus 675 and label "Standard Model". -/
theorem scenario_standard :
    (MarkoEconomicSim.mk 18 667).calculate (33 / 2) 1500 false false
      = { labor := 1485, auto := 15, public := 825, elites := 675,
          policy := "Standard Model" } := by
  norm_num [MarkoEconomicSim.calculate, MarkoEconomicSim.distribution_logic,
    min_def]

/-- C7: In the renderer, `is_stable` is true iff the calculator's public
allocation is ≥ QLT, and it selects exactly the green/"STABLE" pair when
true and the red/"COLLAPSE" pair when false. -/
theorem renderer_stability (tvg jobs population qlt : ℚ) (policy : String) :
    ((draw_system_data tvg jobs population qlt policy).is_stable = true
      ↔ qlt ≤ (draw_system_data tvg jobs population qlt policy).data.public) ∧
    ((draw_system_data tvg jobs population qlt policy).is_stable = true →
      (draw_system_data tvg jobs population qlt policy).status_color
          = "#2ecc71" ∧
      (draw_system_data tvg jobs population qlt policy).status_text
          = "STABLE") ∧
    ((draw_system_data tvg jobs population qlt policy).is_stable = false →
      (draw_system_data tvg jobs population qlt policy).status_color
          = "#e74c3c" ∧
      (draw_system_data tvg jobs population qlt policy).status_text
          = "COLLAPSE") := by
  unfold draw_system_data
  dsimp only
  refine ⟨decide_eq_true_iff, ?_, ?_⟩
  · intro h
    simp [h]
  · intro h
    simp [h]

/-- Witness for C7 on the stable standard scenario. -/
theorem renderer_stability_witness :
    (draw_system_data 1500 (33 / 2) 18 667 "None").status_color
        = "#2ecc71" ∧
    (draw_system_data 1500 (33 / 2) 18 667 "None").status_text = "STABLE" :=
  (renderer_stability 1500 (33 / 2) 18 667 "None").2.1
    (by norm_num [draw_system_data, MarkoEconomicSim.calculate,
      MarkoEconomicSim.distribution_logic, min_def]; decide)

/-- C8: Increasing jobs_available while the (larger) workforce stays
strictly below population never decreases labor, strictly increases it
while `workforce * 90 < tvg`, and preserves `labor + auto = tvg` for both
inputs. -/
theorem labor_monotone (population QLT tvg j1 j2 : ℚ) (d s : Bool)
    (h12 : j1 < j2) (h2 : j2 < population) :
    ((MarkoEconomicSim.mk population QLT).calculate j1 tvg d s).labor
      ≤ ((MarkoEconomicSim.mk population QLT).calculate j2 tvg d s).labor ∧
    (j2 * 90 < tvg →
      ((MarkoEconomicSim.mk population QLT).calculate j1 tvg d s).labor
        < ((MarkoEconomicSim.mk population QLT).calculate j2 tvg d s).labor) ∧
    ((MarkoEconomicSim.mk population QLT).calculate j1 tvg d s).labor
      + ((MarkoEconomicSim.mk population QLT).calculate j1 tvg d s).auto
      = tvg ∧
    ((MarkoEconomicSim.mk population QLT).calculate j2 tvg d s).labor
      + ((MarkoEconomicSim.mk population QLT).calculate j2 tvg d s).auto
      = tvg := by
  have hm1 : min j1 population = j1 := min_eq_left (le_of_lt (lt_trans h12 h2))
  have hm2 : min j2 population = j2 := min_eq_left (le_of_lt h2)
  have h90 : j1 * 90 < j2 * 90 :=
    mul_lt_mul_of_pos_right h12 (by norm_num)
  refine ⟨?_, ?_, labor_add_auto _ _ _ _ _, labor_add_auto _ _ _ _ _⟩
  · unfold MarkoEconomicSim.calculate
    dsimp only
    rw [hm1, hm2]
    split_ifs <;> linarith
  · intro hcap
    unfold MarkoEconomicSim.calculate
    dsimp only
    rw [hm1, hm2]
    split_ifs <;> linarith

/-- Witness for C8: jobs 10 vs 16 with population 18, tvg 1500. -/
theorem labor_monotone_witness :
    ((MarkoEconomicSim.mk 18 667).calculate 10 1500 false false).labor
      < ((MarkoEconomicSim.mk 18 667).calculate 16 1500 false false).labor :=
  (labor_monotone 18 667 1500 10 16 false false (by norm_num)
    (by norm_num)).2.1 (by norm_num)

/-- C9: `calculate` is deterministic and stateless: two calls whose inputs
are pairwise equal return identical results. -/
theorem calculate_deterministic (population QLT jobs_available tvg : ℚ)
    (use_dividend use_stabilization : Bool)
    (population2 QLT2 jobs2 tvg2 : ℚ) (d2 s2 : Bool)
    (hp : population = population2) (hq : QLT = QLT2)
    (hj : jobs_available = jobs2) (ht : tvg = tvg2)
    (hd : use_dividend = d2) (hs : use_stabilization = s2) :
    (MarkoEconomicSim.mk population QLT).calculate jobs_available tvg
        use_dividend use_stabilization
      = (MarkoEconomicSim.mk population2 QLT2).calculate jobs2 tvg2 d2 s2 := by
  subst hp; subst hq; subst hj; subst ht; subst hd; subst hs
  rfl

/-- Witness for C9 on the standard scenario called twice. -/
theorem calculate_deterministic_witness :
    (MarkoEconomicSim.mk 18 667).calculate (33 / 2) 1500 false false
      = (MarkoEconomicSim.mk 18 667).calculate (33 / 2) 1500 false false :=
  calculate_deterministic 18 667 (33 / 2) 1500 false false
    18 667 (33 / 2) 1500 false false rfl rfl rfl rfl rfl rfl

/-- C10: Every arrow tail thickness is `value * (25 / 3000)` floored at
minimum width 1, and the renderer's numeric data is exactly the pure
calculator output on the original inputs — thickness never feeds back into
it. -/
theorem arrow_width_formula :
    (∀ value : ℚ, draw_arrow_width value
        = if value * (25 / 3000) < 1 then 1 else value * (25 / 3000)) ∧
    (∀ tvg jobs population qlt : ℚ, ∀ policy : String,
        (draw_system_data tvg jobs population qlt policy).data
          = (MarkoEconomicSim.mk population qlt).calculate jobs tvg
              (policy == "National Dividend")
              (policy == "Stabilization Fund")) :=
  ⟨fun _ => rfl, fun _ _ _ _ _ => rfl⟩

end MarkoSim
